import Mathlib

/-!
Verification of the Rummage frontier-queue / claim-protocol core.

The development shallowly embeds the two source modules
`common/redis_client_base.py` (class `RedisClientBase`) and
`common/scraper_redis_client.py` (class `ScraperRedisClient`).

Modelling conventions:
  * the shared Redis store is a `RedisStore`: three association lists for
    scalar string keys, hash records, and sorted sets (member, score);
  * `self._client` being set/None is modelled by a `connected : Bool`
    argument; the Python `RuntimeError("No connection to Redis server")`
    becomes `RedisError.noConnection`;
  * fallible Python methods return `Except RedisError _` (or
    `Except PyErr _` for runtime crashes such as calling `.decode()` on
    `None`), and methods that mutate the store return the updated store;
  * Redis stores every value as a string, so Python values passed to the
    client are embedded as their string form (e.g. the integer `0` written
    by `set_field_value(key, 0)` is stored as `"0"`);
  * `int(time.time())` is passed in as an explicit `now : Int` argument.
-/

/-- Lookup in an association list keyed by strings (the order-preserving
lookup Redis performs on our modelled key space). -/
def alookup {α : Type} : String → List (String × α) → Option α
  | _, [] => none
  | k, (k', v) :: rest => if k = k' then some v else alookup k rest

/-- Insert-or-update in an association list: replaces the binding of `k`
if present (keeping its position), otherwise appends at the end. -/
def setA {α : Type} (k : String) (v : α) : List (String × α) → List (String × α)
  | [] => [(k, v)]
  | (k', v') :: rest => if k = k' then (k, v) :: rest else (k', v') :: setA k v rest

/-- Remove every binding of `k` from an association list. -/
def removeA {α : Type} (k : String) : List (String × α) → List (String × α)
  | [] => []
  | (k', v) :: rest => if k = k' then removeA k rest else (k', v) :: removeA k rest

/-- State of the shared Redis store: scalar keys, hash records and sorted
sets (member ↦ score). -/
structure RedisStore where
  scalars : List (String × String)
  hashes : List (String × List (String × String))
  zsets : List (String × List (String × Int))
deriving DecidableEq

/-- The empty store (fresh Redis instance). -/
def emptyRedisStore : RedisStore := ⟨[], [], []⟩

/-- Value of a scalar key (`GET`). -/
def RedisStore.getScalar (s : RedisStore) (k : String) : Option String :=
  alookup k s.scalars

/-- Write a scalar key (`SET`). -/
def RedisStore.setScalar (s : RedisStore) (k v : String) : RedisStore :=
  { s with scalars := setA k v s.scalars }

/-- Value of one field of a hash record (`HGET`). -/
def RedisStore.hget (s : RedisStore) (k field : String) : Option String :=
  (alookup k s.hashes).bind (alookup field)

/-- Write one field of a hash record (`HSET key field value`), creating the
hash if absent. -/
def RedisStore.hset (s : RedisStore) (k field value : String) : RedisStore :=
  { s with hashes := setA k (setA field value ((alookup k s.hashes).getD [])) s.hashes }

/-- Bulk-write several fields of a hash record in one command
(`HSET key mapping`), creating the hash if absent. -/
def RedisStore.hsetMapping (s : RedisStore) (k : String) (fvs : List (String × String)) :
    RedisStore :=
  { s with hashes :=
      (setA k (fvs.foldl (fun acc fv => setA fv.1 fv.2 acc) ((alookup k s.hashes).getD []))
        s.hashes) }

/-- Members (with scores) of a sorted set; `[]` when the set is absent. -/
def RedisStore.zsetMembers (s : RedisStore) (name : String) : List (String × Int) :=
  (alookup name s.zsets).getD []

/-- Add a member with a score to a sorted set (`ZADD`). -/
def RedisStore.zadd (s : RedisStore) (name member : String) (score : Int) : RedisStore :=
  { s with zsets := setA name (setA member score (s.zsetMembers name)) s.zsets }

/-- Remove a member from a sorted set (`ZREM`). -/
def RedisStore.zrem (s : RedisStore) (name member : String) : RedisStore :=
  { s with zsets := setA name (removeA member (s.zsetMembers name)) s.zsets }

/-- Whether a key exists in the store with any type (`EXISTS`). -/
def RedisStore.keyExists (s : RedisStore) (k : String) : Bool :=
  (alookup k s.scalars).isSome || (alookup k s.hashes).isSome || (alookup k s.zsets).isSome

/-- Helper for `pyIntOfString`: parse a run of decimal digits with an
accumulator, rejecting any non-digit character. -/
def pyParseDigits : List Char → Nat → Option Nat
  | [], acc => some acc
  | c :: cs, acc =>
    if '0' ≤ c ∧ c ≤ '9' then pyParseDigits cs (acc * 10 + (c.toNat - 48)) else none

/-- The integer shape Python's `int(...)` and Redis's `INCR` accept on our
modelled values: an optional leading minus sign followed by decimal digits
(an executable stand-in for `String.toInt?`, which does not reduce well). -/
def pyIntOfString (s : String) : Option Int :=
  match s.data with
  | [] => none
  | '-' :: cs => if cs = [] then none else (pyParseDigits cs 0).map (fun n => -(n : Int))
  | cs => (pyParseDigits cs 0).map (fun n => (n : Int))

/-- Redis `INCR`: increments an integer-shaped scalar, creating it at 0
(hence storing 1) when the key is entirely absent; rejects keys whose
stored value is not integer-shaped, and keys holding a non-scalar type
(`WRONGTYPE`), with a `ResponseError` message. -/
def RedisStore.incr (s : RedisStore) (key : String) : Except String (Int × RedisStore) :=
  match alookup key s.scalars with
  | some v =>
    match pyIntOfString v with
    | some n => .ok (n + 1, s.setScalar key (toString (n + 1)))
    | none => .error "value is not an integer or out of range"
  | none =>
    if (alookup key s.hashes).isSome || (alookup key s.zsets).isSome then
      .error "WRONGTYPE Operation against a key holding the wrong kind of value"
    else
      .ok (1, s.setScalar key "1")

/-- Errors surfaced by the wrapper methods of `RedisClientBase`
(`redis_client_base.py`): `noConnection` is the
`RuntimeError("No connection to Redis server")`; `responseError` is the
`RuntimeError("ResponseError thrown: ...")` wrapper; `connectFailed` is the
`RuntimeError("Failed to connect to Redis at host:port, reason: ...")`;
`attributeError` is a raw Python `AttributeError` escaping from a method
that touches `self._client` without a connection check. -/
inductive RedisError
  | noConnection
  | responseError (msg : String)
  | connectFailed (host : String) (port : Int) (reason : String)
  | attributeError (msg : String)
deriving DecidableEq

/-- Behaviour of the external `redis.Redis(...).ping()` health check during
`connect`: the server answers (truthy on PONG), or the connection attempt
raises `redis.ConnectionError`. -/
inductive PingOutcome
  | pong (ok : Bool)
  | connError (msg : String)
deriving DecidableEq

/-- Embedding of `RedisClientBase.connect` (redis_client_base.py lines
34-86): `status` starts `False`, becomes `True` only when the ping is
truthy, and a `redis.ConnectionError` is re-raised as a `RuntimeError`
carrying host, port and the underlying reason. -/
def connect (ping : PingOutcome) (hostname : String) (port_number : Int) :
    Except RedisError Bool :=
  match ping with
  | .pong ok => .ok ok
  | .connError msg => .error (.connectFailed hostname port_number msg)

/-- Embedding of `RedisClientBase.set_hash_field_value` (lines 103-137):
connection check, then `HSET`. -/
def set_hash_field_value (connected : Bool) (s : RedisStore) (key field value : String) :
    Except RedisError RedisStore :=
  if !connected then .error .noConnection
  else .ok (s.hset key field value)

/-- Embedding of `RedisClientBase.set_hash_field_values` (lines 139-164):
connection check, then bulk `HSET` with a mapping. -/
def set_hash_field_values (connected : Bool) (s : RedisStore) (key : String)
    (field_values : List (String × String)) : Except RedisError RedisStore :=
  if !connected then .error .noConnection
  else .ok (s.hsetMapping key field_values)

/-- Embedding of `RedisClientBase.get_hash_field_value` (lines 166-190).
Unlike every other data method of the class, the source performs NO
connection check: it calls `self._client.hget(key, field)` directly, so
with `self._client = None` Python raises `AttributeError`, not the
`RuntimeError("No connection to Redis server")`. -/
def get_hash_field_value (connected : Bool) (s : RedisStore) (key field : String) :
    Except RedisError (Option String) :=
  if !connected then .error (.attributeError "NoneType object has no attribute hget")
  else .ok (s.hget key field)

/-- Embedding of `RedisClientBase.set_field_value` (lines 192-215). -/
def set_field_value (connected : Bool) (s : RedisStore) (key value : String) :
    Except RedisError RedisStore :=
  if !connected then .error .noConnection
  else .ok (s.setScalar key value)

/-- Embedding of `RedisClientBase.get_field_value` (lines 217-239). -/
def get_field_value (connected : Bool) (s : RedisStore) (key : String) :
    Except RedisError (Option String) :=
  if !connected then .error .noConnection
  else .ok (s.getScalar key)

/-- Embedding of `RedisClientBase.field_exists` (lines 241-262). -/
def field_exists (connected : Bool) (s : RedisStore) (key : String) :
    Except RedisError Bool :=
  if !connected then .error .noConnection
  else .ok (s.keyExists key)

/-- Embedding of `RedisClientBase.increment_field_value` (lines 264-296):
connection check; then `if not self.field_exists(key): return None`; then
`INCR`, with `redis.exceptions.ResponseError` re-raised as a
`RuntimeError`. -/
def increment_field_value (connected : Bool) (s : RedisStore) (key : String) :
    Except RedisError (Option Int × RedisStore) :=
  if !connected then .error .noConnection
  else
    match field_exists connected s key with
    | .error e => .error e
    | .ok ex =>
      if !ex then .ok (none, s)
      else
        match s.incr key with
        | .ok (n, s') => .ok (some n, s')
        | .error msg => .error (.responseError msg)

/-- Source constant `ScraperRedisClient.KEY_DOMAIN_ENTRY_ID`. -/
def KEY_DOMAIN_ENTRY_ID : String := "domain_entry_id"

/-- Source constant `ScraperRedisClient.DOMAIN_ENTRY_BY_TIMESTAMP_SET`
(the unassigned frontier set). -/
def DOMAIN_ENTRY_BY_TIMESTAMP_SET : String := "domain_entries_by_timestamp"

/-- Source constant `ScraperRedisClient.DOMAIN_ENTRY_ASSIGNED_TO_NODE_SET`
(the assigned set). -/
def DOMAIN_ENTRY_ASSIGNED_TO_NODE_SET : String := "domain_entries_assigned_to_node"

/-- Source constant `KEY_DOMAIN_ENTRY_PREFIX` = `"NODE_ENTRY:"` (the name is
shortened here to `..._PREF`). -/
def KEY_DOMAIN_ENTRY_PREF : String := "NODE_ENTRY:"

/-- Source constant `DOMAIN_ASSIGNMENT_STATUS_ASSIGNED`. -/
def DOMAIN_ASSIGNMENT_STATUS_ASSIGNED : String := "assigned"

/-- Source constant `DOMAIN_ASSIGNMENT_STATUS_UNASSIGNED`. -/
def DOMAIN_ASSIGNMENT_STATUS_UNASSIGNED : String := "unassigned"

/-- Python's `str` applied to the result of `increment_field_value`, as the
f-string `f"{self.KEY_DOMAIN_ENTRY_PREFIX}{entry_id}"` does: `None` prints
as `"None"`, an integer prints in decimal. -/
def pyIntStr : Option Int → String
  | none => "None"
  | some n => toString n

/-- Modelled from the spec: `add_to_sorted_set` is called by
`ScraperRedisClient.add_domain_entry` but its definition is not under
`src/`. Per the spec, `publish_unassigned(entry_key, created_at)` "adds
`entry_key` to the unassigned ordered set with score `created_at`"; like
every data operation it requires an active connection. -/
def add_to_sorted_set (connected : Bool) (s : RedisStore) (name member : String)
    (score : Int) : Except RedisError RedisStore :=
  if !connected then .error .noConnection
  else .ok (s.zadd name member score)

/-- Whether the first character list is an initial segment of the second
(an executable stand-in for `String.startsWith`, which does not reduce
well). -/
def listIsPrefOf : List Char → List Char → Bool
  | [], _ => true
  | _ :: _, [] => false
  | c :: cs, d :: ds => c == d && listIsPrefOf cs ds

/-- Whether `s` starts with `pre`, on the underlying character lists. -/
def strStartsWith (s pre : String) : Bool := listIsPrefOf pre.data s.data

/-- Modelled from the spec: `count_keys_with_prefix` (name shortened) is
called by `ScraperRedisClient.initialise_redis` but is not under `src/`;
it counts the keys starting with the given prefix, and its result is only
logged. -/
def count_keys_with_pref (s : RedisStore) (pre : String) : Nat :=
  (s.scalars.filter (fun kv => strStartsWith kv.1 pre)).length +
    (s.hashes.filter (fun kv => strStartsWith kv.1 pre)).length +
    (s.zsets.filter (fun kv => strStartsWith kv.1 pre)).length

/-- Modelled from the spec: `delete_keys_with_prefix` (name shortened) is
called by `ScraperRedisClient.initialise_redis` but is not under `src/`.
Per the spec the forced reset "deletes all existing per-entry records",
i.e. removes every key that starts with the given prefix. -/
def delete_keys_with_pref (s : RedisStore) (pre : String) : RedisStore :=
  { scalars := s.scalars.filter (fun kv => !strStartsWith kv.1 pre),
    hashes := s.hashes.filter (fun kv => !strStartsWith kv.1 pre),
    zsets := s.zsets.filter (fun kv => !strStartsWith kv.1 pre) }

/-- Modelled from the spec: `clear_sorted_set` is called by
`ScraperRedisClient.initialise_redis` but is not under `src/`. Per the
spec, `clear(set_name)` "removes all members". -/
def clear_sorted_set (s : RedisStore) (name : String) : RedisStore :=
  { s with zsets := s.zsets.filter (fun kv => kv.1 != name) }

/-- Embedding of `ScraperRedisClient.initialise_redis`
(scraper_redis_client.py lines 62-122). Steps, exactly as in the source:
check/create or force-reset the id counter; count the `NODE_ENTRY:` keys
(logged only) and delete them all when `force`; clear the
`domain_entries_by_timestamp` sorted set when it exists and `force`.
Note the `domain_entries_assigned_to_node` set is never touched. -/
def initialise_redis (connected : Bool) (s : RedisStore) (force : Bool) :
    Except RedisError RedisStore :=
  match field_exists connected s KEY_DOMAIN_ENTRY_ID with
  | .error e => .error e
  | .ok ex =>
    match (if !ex then set_field_value connected s KEY_DOMAIN_ENTRY_ID "0"
           else if force then set_field_value connected s KEY_DOMAIN_ENTRY_ID "0"
           else .ok s) with
    | .error e => .error e
    | .ok s1 =>
      let _entries_found := count_keys_with_pref s1 KEY_DOMAIN_ENTRY_PREF
      let s2 := if force then delete_keys_with_pref s1 KEY_DOMAIN_ENTRY_PREF else s1
      match field_exists connected s2 DOMAIN_ENTRY_BY_TIMESTAMP_SET with
      | .error e => .error e
      | .ok setEx =>
        .ok (if setEx && force then clear_sorted_set s2 DOMAIN_ENTRY_BY_TIMESTAMP_SET else s2)

/-- Embedding of `ScraperRedisClient.add_domain_entry`
(scraper_redis_client.py lines 124-163): build the record, allocate the id
with `increment_field_value`, bulk-write the record as one hash mapping
under `NODE_ENTRY:<entry_id>`, and add that key to the unassigned sorted
set with the timestamp as score. -/
def add_domain_entry (connected : Bool) (s : RedisStore) (domain : String) (now : Int) :
    Except RedisError RedisStore :=
  let timestamp := now
  let data : List (String × String) :=
    [("URL", domain), ("timestamp", toString timestamp),
     ("assigned_status", DOMAIN_ASSIGNMENT_STATUS_UNASSIGNED), ("node_assignment", "")]
  match increment_field_value connected s KEY_DOMAIN_ENTRY_ID with
  | .error e => .error e
  | .ok (entry_id, s1) =>
    let key_id := KEY_DOMAIN_ENTRY_PREF ++ pyIntStr entry_id
    match set_hash_field_values connected s1 key_id data with
    | .error e => .error e
    | .ok s2 => add_to_sorted_set connected s2 DOMAIN_ENTRY_BY_TIMESTAMP_SET key_id timestamp

/-- Python runtime errors that `find_and_assign_oldest_entry` can raise on
malformed records: `attrError` models `None.decode()` (`AttributeError`),
`typeError` models `int(None)`, `valueError` models `int("...")` on a
non-numeric string. -/
inductive PyErr
  | attrError (msg : String)
  | typeError (msg : String)
  | valueError (msg : String)
deriving DecidableEq

/-- Store commands issued by one invocation of
`find_and_assign_oldest_entry`, recorded in order as an observable trace:
the frontier fetch `ZRANGEBYSCORE`, `WATCH`, `HGET`, the `MULTI`/`EXEC`
commit attempt, and `UNWATCH`. -/
inductive StoreOp
  | zrangebyscore (setName : String)
  | watch (key : String)
  | hget (key field : String)
  | execTry (key : String)
  | unwatch
deriving DecidableEq

/-- Whether a trace entry is a frontier fetch (`ZRANGEBYSCORE`). -/
def isZrangeOp : StoreOp → Bool
  | .zrangebyscore _ => true
  | _ => false

/-- Insert a member in front of the first member with a greater-or-equal
score (used to model the ascending-score order `ZRANGEBYSCORE` returns).
The relative order of equal scores is not specified by the claims (the
spec leaves ties "stable but unspecified"). -/
def insertLE (x : String × Int) : List (String × Int) → List (String × Int)
  | [] => [x]
  | y :: ys => if x.2 ≤ y.2 then x :: y :: ys else y :: insertLE x ys

/-- Sort sorted-set members by ascending score: the order in which
`ZRANGEBYSCORE set -inf +inf` yields the members. -/
def sortByScore : List (String × Int) → List (String × Int)
  | [] => []
  | x :: xs => insertLE x (sortByScore xs)

/-- Result of one invocation of `find_and_assign_oldest_entry`: `ret` is
the value the Python function returns to its caller (both `return`
statements in the source return `None`, i.e. `none`); `store` is the
store after the invocation; `prints` the lines written to stdout; `ops`
the trace of store commands issued. -/
structure FindOutcome where
  ret : Option String
  store : RedisStore
  prints : List String
  ops : List StoreOp
deriving DecidableEq

/-- Embedding of the `for entry_key in entries:` loop of
`ScraperRedisClient.find_and_assign_oldest_entry` (scraper_redis_client.py
lines 171-213) over one snapshot of entry keys. For each key: `WATCH`,
read `assigned_status` (crash if the hash/field is missing, as
`None.decode()` would); if unassigned, queue the transaction, read and
parse `timestamp`, and `EXEC`. `conflict key = true` means another client
modified the watched key before `EXEC`, so the commit raises
`redis.WatchError` and the loop `continue`s with the next candidate;
otherwise the transaction atomically sets `assigned_status` to
`"assigned"`, removes the key from the unassigned set and adds it to the
assigned set, and the function prints and returns `None`. If the status is
not `"unassigned"`, `UNWATCH` and move on. An exhausted snapshot prints
"No unassigned entries found." and returns `None`. -/
def claimScan (conflict : String → Bool) (s : RedisStore) :
    List String → Except PyErr (Option String × RedisStore × List String × List StoreOp)
  | [] => .ok (none, s, ["No unassigned entries found."], [])
  | entry_key :: rest =>
    match s.hget entry_key "assigned_status" with
    | none => .error (.attrError "NoneType object has no attribute decode")
    | some status =>
      if status = DOMAIN_ASSIGNMENT_STATUS_UNASSIGNED then
        match s.hget entry_key "timestamp" with
        | none => .error (.typeError "int argument must not be NoneType")
        | some tstr =>
          match pyIntOfString tstr with
          | none => .error (.valueError "invalid literal for int with base 10")
          | some timestamp =>
            if conflict entry_key then
              match claimScan conflict s rest with
              | .error e => .error e
              | .ok (r, s', p, ops) =>
                .ok (r, s', p,
                  [StoreOp.watch entry_key, StoreOp.hget entry_key "assigned_status",
                   StoreOp.hget entry_key "timestamp", StoreOp.execTry entry_key] ++ ops)
            else
              let s' := ((s.hset entry_key "assigned_status"
                  DOMAIN_ASSIGNMENT_STATUS_ASSIGNED).zrem
                    DOMAIN_ENTRY_BY_TIMESTAMP_SET entry_key).zadd
                      DOMAIN_ENTRY_ASSIGNED_TO_NODE_SET entry_key timestamp
              match s'.hget entry_key "URL" with
              | none => .error (.attrError "NoneType object has no attribute decode")
              | some url =>
                .ok (none, s',
                  ["Locked and moved entry: " ++ entry_key ++ " with URL: " ++ url ++
                    ", Timestamp: " ++ toString timestamp],
                  [StoreOp.watch entry_key, StoreOp.hget entry_key "assigned_status",
                   StoreOp.hget entry_key "timestamp", StoreOp.execTry entry_key,
                   StoreOp.hget entry_key "URL"])
      else
        match claimScan conflict s rest with
        | .error e => .error e
        | .ok (r, s', p, ops) =>
          .ok (r, s', p,
            [StoreOp.watch entry_key, StoreOp.hget entry_key "assigned_status",
             StoreOp.unwatch] ++ ops)

/-- Embedding of `ScraperRedisClient.find_and_assign_oldest_entry`
(scraper_redis_client.py lines 165-213). The body of the outer
`while True:` fetches the snapshot once with `ZRANGEBYSCORE` and then
returns on every control path (the claimed-entry `return`, the
no-candidate `return`, or an escaping exception; the `continue` in the
`except redis.WatchError` branch continues the inner `for` loop, not the
`while`), so the `while` never performs a second iteration. The
`conflict` argument is the interference oracle: which watched keys are
modified by other clients before this invocation's `EXEC`. -/
def find_and_assign_oldest_entry (conflict : String → Bool) (s : RedisStore) :
    Except PyErr FindOutcome :=
  let entries := (sortByScore (s.zsetMembers DOMAIN_ENTRY_BY_TIMESTAMP_SET)).map Prod.fst
  match claimScan conflict s entries with
  | .error e => .error e
  | .ok (r, s', p, ops) =>
    .ok ⟨r, s', p, StoreOp.zrangebyscore DOMAIN_ENTRY_BY_TIMESTAMP_SET :: ops⟩

/-- Status of the single contended entry in the claim-race model: the
value of its `assigned_status` hash field. -/
inductive EntryStatus
  | unassigned
  | assigned
deriving DecidableEq

/-- Local control state of one worker running the body of the candidate
loop of `find_and_assign_oldest_entry` (scraper_redis_client.py lines
171-207) against one fixed entry. `scanning`: before the `WATCH` (line
173); `watched v`: `WATCH` registered while the entry key had modification
version `v`; `ready v`: read `assigned_status = "unassigned"` (lines
176-178) and queued the `MULTI` transaction; `success`: `pipe.execute()`
committed (line 197); `skipped`: read a status other than `"unassigned"`
and released the watch (lines 178, 210); `conflicted`: `pipe.execute()`
raised `redis.WatchError` because the watched key changed (line 205), so
this worker moves on past this entry. -/
inductive WorkerPhase
  | scanning
  | watched (v : Nat)
  | ready (v : Nat)
  | success
  | skipped
  | conflicted
deriving DecidableEq

/-- Global state of N workers racing to claim one entry: the entry's
status, the modification version of the entry key (incremented by every
committed write to it, which is what `WATCH`/`EXEC` conditions on), and
each worker's phase. -/
structure RaceState where
  status : EntryStatus
  ver : Nat
  workers : List WorkerPhase
deriving DecidableEq

/-- Whether a worker committed its claim transaction. -/
def isSuccess : WorkerPhase → Bool
  | .success => true
  | _ => false

/-- Whether a worker gave up on the entry (skip after reading a
non-unassigned status, or a `WatchError` abort). -/
def isLoser : WorkerPhase → Bool
  | .skipped => true
  | .conflicted => true
  | _ => false

/-- Whether a worker is finished with the entry. -/
def isDonePhase (w : WorkerPhase) : Bool := isSuccess w || isLoser w

/-- Number of workers whose claim transaction committed. -/
def successCount (s : RaceState) : Nat := s.workers.countP isSuccess

/-- All workers have finished with the entry. -/
def allDone (s : RaceState) : Bool := s.workers.all isDonePhase

/-- Initial race state: the entry is unassigned (as published by
`add_domain_entry`), and each of the `n` workers is about to run the
candidate-loop body on it. -/
def initRace (n : Nat) : RaceState := ⟨.unassigned, 0, List.replicate n .scanning⟩

/-- One interleaved step of the race: some worker `i` performs the next
blocking store operation of the candidate-loop body
(scraper_redis_client.py lines 171-210). `watchKey`: register the watch,
recording the entry key's current version (line 173). `readUnassigned` /
`readAssigned`: the `HGET assigned_status` (line 176) observes the current
status. `execCommit`: `pipe.execute()` succeeds because the watched key is
unmodified since the watch — the transaction atomically marks the entry
assigned (and moves it between the frontier sets, which this single-entry
model does not track) and bumps the key's version. `execConflict`:
`pipe.execute()` raises `redis.WatchError` because the key's version moved
since the watch; the worker abandons this entry (line 207). -/
inductive RaceStep : RaceState → RaceState → Prop
  | watchKey (s : RaceState) (i : Nat)
      (h : s.workers.get? i = some .scanning) :
      RaceStep s { s with workers := s.workers.set i (.watched s.ver) }
  | readUnassigned (s : RaceState) (i : Nat) (v : Nat)
      (h : s.workers.get? i = some (.watched v)) (hs : s.status = .unassigned) :
      RaceStep s { s with workers := s.workers.set i (.ready v) }
  | readAssigned (s : RaceState) (i : Nat) (v : Nat)
      (h : s.workers.get? i = some (.watched v)) (hs : s.status = .assigned) :
      RaceStep s { s with workers := s.workers.set i .skipped }
  | execCommit (s : RaceState) (i : Nat) (v : Nat)
      (h : s.workers.get? i = some (.ready v)) (hv : s.ver = v) :
      RaceStep s ⟨.assigned, s.ver + 1, s.workers.set i .success⟩
  | execConflict (s : RaceState) (i : Nat) (v : Nat)
      (h : s.workers.get? i = some (.ready v)) (hv : s.ver ≠ v) :
      RaceStep s { s with workers := s.workers.set i .conflicted }

/-- A race state reachable by some interleaving of the `n` workers. -/
def RaceReachable (n : Nat) (s : RaceState) : Prop :=
  Relation.ReflTransGen RaceStep (initRace n) s

/-- Inductive invariant of the claim race: the worker count is fixed; the
entry's version counts exactly the committed claim transactions; the entry
is assigned iff some claim committed; a registered watch never records a
future version; a worker ready to commit recorded version 0 (it read
`"unassigned"`, which forces version 0); a skip or a conflict can only be
caused by a committed claim; and at most one claim ever commits. -/
structure RaceInv (n : Nat) (s : RaceState) : Prop where
  lengthEq : s.workers.length = n
  verEq : s.ver = successCount s
  statusIff : s.status = .assigned ↔ 1 ≤ successCount s
  watchedLe : ∀ i v, s.workers.get? i = some (.watched v) → v ≤ s.ver
  readyZero : ∀ i v, s.workers.get? i = some (.ready v) → v = 0
  skippedSucc : ∀ i, s.workers.get? i = some .skipped → 1 ≤ successCount s
  conflictedSucc : ∀ i, s.workers.get? i = some .conflicted → 1 ≤ successCount s
  succLe : successCount s ≤ 1

/-- A concrete store with a counter at 5 and nothing else. -/
def counterFiveStore : RedisStore := ⟨[("domain_entry_id", "5")], [], []⟩

/-- A concrete store with a counter at 0 and nothing else. -/
def counterZeroStore : RedisStore := ⟨[("domain_entry_id", "0")], [], []⟩

/-- A concrete store holding one published, unassigned entry. -/
def oneEntryStore : RedisStore :=
  ⟨[("domain_entry_id", "1")],
   [("NODE_ENTRY:1",
     [("URL", "http://example.com"), ("timestamp", "100"),
      ("assigned_status", "unassigned"), ("node_assignment", "")])],
   [("domain_entries_by_timestamp", [("NODE_ENTRY:1", 100)])]⟩

/-- A concrete store holding two unassigned entries whose frontier members
are listed out of timestamp order (so the ascending-score sort matters). -/
def twoEntryStore : RedisStore :=
  ⟨[("domain_entry_id", "2")],
   [("NODE_ENTRY:1",
     [("URL", "http://a.com"), ("timestamp", "100"),
      ("assigned_status", "unassigned"), ("node_assignment", "")]),
    ("NODE_ENTRY:2",
     [("URL", "http://b.com"), ("timestamp", "300"),
      ("assigned_status", "unassigned"), ("node_assignment", "")])],
   [("domain_entries_by_timestamp", [("NODE_ENTRY:2", 300), ("NODE_ENTRY:1", 100)])]⟩

/-- A concrete store with prior content of every kind, including a
nonempty assigned sorted set, used as input to the forced reset. -/
def preResetStore : RedisStore :=
  ⟨[("domain_entry_id", "7")],
   [("NODE_ENTRY:1",
     [("URL", "http://a.com"), ("timestamp", "100"),
      ("assigned_status", "unassigned"), ("node_assignment", "")])],
   [("domain_entries_by_timestamp", [("NODE_ENTRY:1", 100)]),
    ("domain_entries_assigned_to_node", [("NODE_ENTRY:0", 50)])]⟩

/-- The store `add_domain_entry` produces when the id counter key is
absent: `increment_field_value` returns `None`, so the record is
bulk-written under the literal key `"NODE_ENTRY:None"` and that key is
published in the unassigned set with score `now`. -/
def addEntryNoCounterStore (s : RedisStore) (url : String) (now : Int) : RedisStore :=
  (s.hsetMapping "NODE_ENTRY:None"
    [("URL", url), ("timestamp", toString now),
     ("assigned_status", DOMAIN_ASSIGNMENT_STATUS_UNASSIGNED),
     ("node_assignment", "")]).zadd DOMAIN_ENTRY_BY_TIMESTAMP_SET "NODE_ENTRY:None" now

theorem alookup_setA {α : Type} (k k' : String) (v : α) (l : List (String × α)) :
    alookup k (setA k' v l) = if k = k' then some v else alookup k l := by
  induction l with
  | nil => simp [setA, alookup]
  | cons hd tl ih =>
    obtain ⟨k2, v2⟩ := hd
    by_cases h1 : k' = k2
    · subst h1
      by_cases h2 : k = k'
      · simp [setA, alookup, h2]
      · simp [setA, alookup, h2]
    · by_cases h2 : k = k2
      · subst h2
        have h3 : ¬k = k' := fun hh => h1 hh.symm
        simp [setA, alookup, h1, h3]
      · simp [setA, alookup, h1, h2, ih]

theorem alookup_removeA_self {α : Type} (k : String) (l : List (String × α)) :
    alookup k (removeA k l) = none := by
  induction l with
  | nil => simp [removeA, alookup]
  | cons hd tl ih =>
    obtain ⟨k2, v2⟩ := hd
    by_cases h2 : k = k2
    · subst h2
      simp [removeA, ih]
    · simp [removeA, alookup, h2, ih]

theorem hget_hset_self (s : RedisStore) (k f v : String) :
    (s.hset k f v).hget k f = some v := by
  simp [RedisStore.hget, RedisStore.hset, alookup_setA]

theorem hget_hset_field_ne (s : RedisStore) (k f v f' : String) (hf : f' ≠ f) :
    (s.hset k f v).hget k f' = s.hget k f' := by
  simp only [RedisStore.hget, RedisStore.hset, alookup_setA, if_pos rfl]
  cases hm : alookup k s.hashes with
  | none => simp [alookup_setA, hf, alookup]
  | some fields => simp [alookup_setA, hf]

theorem hget_hset_key_ne (s : RedisStore) (k f v k' f' : String) (hk : k' ≠ k) :
    (s.hset k f v).hget k' f' = s.hget k' f' := by
  simp [RedisStore.hget, RedisStore.hset, alookup_setA, hk]

theorem hget_zadd (s : RedisStore) (name member : String) (score : Int) (k f : String) :
    (s.zadd name member score).hget k f = s.hget k f := rfl

theorem hget_zrem (s : RedisStore) (name member : String) (k f : String) :
    (s.zrem name member).hget k f = s.hget k f := rfl

theorem zsetMembers_hset (s : RedisStore) (k f v name : String) :
    (s.hset k f v).zsetMembers name = s.zsetMembers name := rfl

theorem zsetMembers_zadd_self (s : RedisStore) (name member : String) (score : Int) :
    (s.zadd name member score).zsetMembers name = setA member score (s.zsetMembers name) := by
  simp [RedisStore.zsetMembers, RedisStore.zadd, alookup_setA]

theorem zsetMembers_zadd_ne (s : RedisStore) (name member : String) (score : Int)
    (name' : String) (hn : name' ≠ name) :
    (s.zadd name member score).zsetMembers name' = s.zsetMembers name' := by
  simp [RedisStore.zsetMembers, RedisStore.zadd, alookup_setA, hn]

theorem zsetMembers_zrem_self (s : RedisStore) (name member : String) :
    (s.zrem name member).zsetMembers name = removeA member (s.zsetMembers name) := by
  simp [RedisStore.zsetMembers, RedisStore.zrem, alookup_setA]

theorem mem_insertLE (x p : String × Int) (l : List (String × Int)) :
    p ∈ insertLE x l ↔ p = x ∨ p ∈ l := by
  induction l with
  | nil => simp [insertLE]
  | cons y ys ih =>
    by_cases h : x.2 ≤ y.2
    · simp only [insertLE, if_pos h, List.mem_cons]
    · simp only [insertLE, if_neg h, List.mem_cons, ih]
      tauto

theorem mem_sortByScore (p : String × Int) (l : List (String × Int)) :
    p ∈ sortByScore l ↔ p ∈ l := by
  induction l with
  | nil => simp [sortByScore]
  | cons x xs ih => simp [sortByScore, mem_insertLE, ih]

theorem pairwise_insertLE (x : String × Int) (l : List (String × Int))
    (h : List.Pairwise (fun a b => a.2 ≤ b.2) l) :
    List.Pairwise (fun a b => a.2 ≤ b.2) (insertLE x l) := by
  induction l with
  | nil => simp [insertLE]
  | cons y ys ih =>
    rcases h with _ | ⟨hy, hys⟩
    by_cases hle : x.2 ≤ y.2
    · simp only [insertLE, if_pos hle]
      constructor
      · intro p hp
        rcases List.mem_cons.mp hp with h1 | h1
        · exact h1 ▸ hle
        · exact le_trans hle (hy p h1)
      · exact List.Pairwise.cons hy hys
    · simp only [insertLE, if_neg hle]
      constructor
      · intro p hp
        rcases (mem_insertLE x p ys).mp hp with h1 | h1
        · exact h1 ▸ le_of_not_le hle
        · exact hy p h1
      · exact ih hys

theorem pairwise_sortByScore (l : List (String × Int)) :
    List.Pairwise (fun a b => a.2 ≤ b.2) (sortByScore l) := by
  induction l with
  | nil => simp [sortByScore]
  | cons x xs ih => exact pairwise_insertLE x (sortByScore xs) ih

theorem sortByScore_eq_nil (l : List (String × Int)) (h : sortByScore l = []) : l = [] := by
  cases l with
  | nil => rfl
  | cons x xs =>
    exfalso
    have hx : x ∈ sortByScore (x :: xs) := (mem_sortByScore x (x :: xs)).mpr (by simp)
    rw [h] at hx
    exact List.not_mem_nil x hx

theorem get?_set_cases {α : Type} (l : List α) (i j : Nat) (b w : α)
    (h : (l.set i b).get? j = some w) :
    (j = i ∧ w = b) ∨ (j ≠ i ∧ l.get? j = some w) := by
  induction l generalizing i j with
  | nil => simp [List.set] at h
  | cons hd tl ih =>
    cases i with
    | zero =>
      cases j with
      | zero =>
        simp [List.set, List.get?] at h
        exact Or.inl ⟨rfl, h.symm⟩
      | succ j' =>
        simp only [List.set, List.get?] at h
        exact Or.inr ⟨by simp, h⟩
    | succ i' =>
      cases j with
      | zero =>
        simp only [List.set, List.get?] at h
        exact Or.inr ⟨by simp, h⟩
      | succ j' =>
        simp only [List.set, List.get?] at h
        rcases ih i' j' h with ⟨h1, h2⟩ | ⟨h1, h2⟩
        · exact Or.inl ⟨by simp [h1], h2⟩
        · exact Or.inr ⟨by simp [h1], h2⟩

theorem countP_set_congr {α : Type} (p : α → Bool) (l : List α) (i : Nat) (a b : α)
    (h : l.get? i = some a) (hpb : p a = p b) :
    (l.set i b).countP p = l.countP p := by
  induction l generalizing i with
  | nil => simp [List.get?] at h
  | cons hd tl ih =>
    cases i with
    | zero =>
      simp only [List.get?] at h
      injection h with h
      subst h
      simp [List.set, List.countP_cons, hpb]
    | succ i' =>
      simp only [List.get?] at h
      simp [List.set, List.countP_cons, ih i' h]

theorem countP_set_incr {α : Type} (p : α → Bool) (l : List α) (i : Nat) (a b : α)
    (h : l.get? i = some a) (hpa : p a = false) (hpb : p b = true) :
    (l.set i b).countP p = l.countP p + 1 := by
  induction l generalizing i with
  | nil => simp [List.get?] at h
  | cons hd tl ih =>
    cases i with
    | zero =>
      simp only [List.get?] at h
      injection h with h
      subst h
      simp [List.set, List.countP_cons, hpa, hpb]
    | succ i' =>
      simp only [List.get?] at h
      simp [List.set, List.countP_cons, ih i' h]
      omega

theorem get?_countP_pos {α : Type} (p : α → Bool) (l : List α) (i : Nat) (a : α)
    (h : l.get? i = some a) (hp : p a = true) : 1 ≤ l.countP p := by
  induction l generalizing i with
  | nil => simp [List.get?] at h
  | cons hd tl ih =>
    cases i with
    | zero =>
      simp only [List.get?] at h
      injection h with h
      subst h
      simp [List.countP_cons, hp]
    | succ i' =>
      have := ih i' h
      simp [List.countP_cons]
      omega

theorem replicate_get? {α : Type} (n i : Nat) (a w : α)
    (h : (List.replicate n a).get? i = some w) : w = a := by
  induction n generalizing i with
  | zero => simp [List.replicate, List.get?] at h
  | succ n' ih =>
    cases i with
    | zero =>
      simp [List.replicate, List.get?] at h
      exact h.symm
    | succ i' =>
      simp only [List.replicate, List.get?] at h
      exact ih i' h

theorem countP_replicate_false {α : Type} (p : α → Bool) (n : Nat) (a : α)
    (hp : p a = false) : (List.replicate n a).countP p = 0 := by
  induction n with
  | zero => simp [List.replicate]
  | succ n' ih => simp [List.replicate, List.countP_cons, hp, ih]

theorem countP_split_done (l : List WorkerPhase)
    (h : ∀ w ∈ l, isDonePhase w = true) :
    l.countP isSuccess + l.countP isLoser = l.length := by
  induction l with
  | nil => simp
  | cons hd tl ih =>
    have hd_done : isDonePhase hd = true := h hd (by simp)
    have htl : ∀ w ∈ tl, isDonePhase w = true := fun w hw => h w (by simp [hw])
    have := ih htl
    cases hd <;> simp_all [isDonePhase, isSuccess, isLoser, List.countP_cons] <;> omega

theorem raceInv_init (n : Nat) : RaceInv n (initRace n) := by
  have hc : successCount (initRace n) = 0 := by
    simp [successCount, initRace, countP_replicate_false isSuccess n .scanning rfl]
  refine ⟨?_, ?_, ?_, ?_, ?_, ?_, ?_, ?_⟩
  · simp [initRace, List.length_replicate]
  · rw [hc]
    rfl
  · rw [hc]
    simp [initRace]
  · intro i v hi
    have := replicate_get? n i WorkerPhase.scanning _ hi
    simp at this
  · intro i v hi
    have := replicate_get? n i WorkerPhase.scanning _ hi
    simp at this
  · intro i hi
    have := replicate_get? n i WorkerPhase.scanning _ hi
    simp at this
  · intro i hi
    have := replicate_get? n i WorkerPhase.scanning _ hi
    simp at this
  · rw [hc]
    omega

theorem raceStep_inv {n : Nat} {s t : RaceState} (inv : RaceInv n s) (st : RaceStep s t) :
    RaceInv n t := by
  cases st with
  | watchKey i h =>
    have hcnt : (s.workers.set i (.watched s.ver)).countP isSuccess =
        s.workers.countP isSuccess := countP_set_congr isSuccess s.workers i _ _ h rfl
    refine ⟨?_, ?_, ?_, ?_, ?_, ?_, ?_, ?_⟩
    · simpa [List.length_set] using inv.lengthEq
    · show s.ver = _
      simpa [successCount, hcnt] using inv.verEq
    · show s.status = _ ↔ _
      simpa [successCount, hcnt] using inv.statusIff
    · intro j v hj
      rcases get?_set_cases _ i j _ _ hj with ⟨hji, hw⟩ | ⟨hji, hw⟩
      · injection hw with hv
        exact le_of_eq hv
      · exact inv.watchedLe j v hw
    · intro j v hj
      rcases get?_set_cases _ i j _ _ hj with ⟨hji, hw⟩ | ⟨hji, hw⟩
      · simp at hw
      · exact inv.readyZero j v hw
    · intro j hj
      rcases get?_set_cases _ i j _ _ hj with ⟨hji, hw⟩ | ⟨hji, hw⟩
      · simp at hw
      · simpa [successCount, hcnt] using inv.skippedSucc j hw
    · intro j hj
      rcases get?_set_cases _ i j _ _ hj with ⟨hji, hw⟩ | ⟨hji, hw⟩
      · simp at hw
      · simpa [successCount, hcnt] using inv.conflictedSucc j hw
    · show successCount _ ≤ 1
      simpa [successCount, hcnt] using inv.succLe
  | readUnassigned i v h hs =>
    have hcnt : (s.workers.set i (.ready v)).countP isSuccess =
        s.workers.countP isSuccess := countP_set_congr isSuccess s.workers i _ _ h rfl
    have hv0 : v = 0 := by
      have hno : ¬s.status = .assigned := by
        rw [hs]
        simp
      have hzero : successCount s = 0 := by
        rcases Nat.eq_zero_or_pos (successCount s) with h0 | h0
        · exact h0
        · exact absurd (inv.statusIff.mpr h0) hno
      have hle := inv.watchedLe i v h
      rw [inv.verEq, hzero] at hle
      omega
    refine ⟨?_, ?_, ?_, ?_, ?_, ?_, ?_, ?_⟩
    · simpa [List.length_set] using inv.lengthEq
    · show s.ver = _
      simpa [successCount, hcnt] using inv.verEq
    · show s.status = _ ↔ _
      simpa [successCount, hcnt] using inv.statusIff
    · intro j v' hj
      rcases get?_set_cases _ i j _ _ hj with ⟨hji, hw⟩ | ⟨hji, hw⟩
      · simp at hw
      · exact inv.watchedLe j v' hw
    · intro j v' hj
      rcases get?_set_cases _ i j _ _ hj with ⟨hji, hw⟩ | ⟨hji, hw⟩
      · injection hw with hv
        rw [hv, hv0]
      · exact inv.readyZero j v' hw
    · intro j hj
      rcases get?_set_cases _ i j _ _ hj with ⟨hji, hw⟩ | ⟨hji, hw⟩
      · simp at hw
      · simpa [successCount, hcnt] using inv.skippedSucc j hw
    · intro j hj
      rcases get?_set_cases _ i j _ _ hj with ⟨hji, hw⟩ | ⟨hji, hw⟩
      · simp at hw
      · simpa [successCount, hcnt] using inv.conflictedSucc j hw
    · show successCount _ ≤ 1
      simpa [successCount, hcnt] using inv.succLe
  | readAssigned i v h hs =>
    have hcnt : (s.workers.set i .skipped).countP isSuccess =
        s.workers.countP isSuccess := countP_set_congr isSuccess s.workers i _ _ h rfl
    have hpos : 1 ≤ successCount s := inv.statusIff.mp hs
    refine ⟨?_, ?_, ?_, ?_, ?_, ?_, ?_, ?_⟩
    · simpa [List.length_set] using inv.lengthEq
    · show s.ver = _
      simpa [successCount, hcnt] using inv.verEq
    · show s.status = _ ↔ _
      simpa [successCount, hcnt] using inv.statusIff
    · intro j v' hj
      rcases get?_set_cases _ i j _ _ hj with ⟨hji, hw⟩ | ⟨hji, hw⟩
      · simp at hw
      · exact inv.watchedLe j v' hw
    · intro j v' hj
      rcases get?_set_cases _ i j _ _ hj with ⟨hji, hw⟩ | ⟨hji, hw⟩
      · simp at hw
      · exact inv.readyZero j v' hw
    · intro j hj
      show 1 ≤ successCount _
      simpa [successCount, hcnt] using hpos
    · intro j hj
      show 1 ≤ successCount _
      simpa [successCount, hcnt] using hpos
    · show successCount _ ≤ 1
      simpa [successCount, hcnt] using inv.succLe
  | execCommit i v h hv =>
    have hv0 : v = 0 := inv.readyZero i v h
    have hzero : successCount s = 0 := by
      have := inv.verEq
      rw [hv, hv0] at this
      omega
    have hcnt : (s.workers.set i .success).countP isSuccess =
        s.workers.countP isSuccess + 1 :=
      countP_set_incr isSuccess s.workers i _ _ h rfl rfl
    have hcnt1 : successCount ⟨.assigned, s.ver + 1, s.workers.set i .success⟩ = 1 := by
      simp only [successCount] at hzero ⊢
      rw [hcnt, hzero]
    refine ⟨?_, ?_, ?_, ?_, ?_, ?_, ?_, ?_⟩
    · simpa [List.length_set] using inv.lengthEq
    · show s.ver + 1 = _
      rw [hcnt1, hv, hv0]
    · rw [hcnt1]
      simp
    · intro j v' hj
      rcases get?_set_cases _ i j _ _ hj with ⟨hji, hw⟩ | ⟨hji, hw⟩
      · simp at hw
      · exact le_trans (inv.watchedLe j v' hw) (Nat.le_succ s.ver)
    · intro j v' hj
      rcases get?_set_cases _ i j _ _ hj with ⟨hji, hw⟩ | ⟨hji, hw⟩
      · simp at hw
      · exact inv.readyZero j v' hw
    · intro j hj
      rw [hcnt1]
    · intro j hj
      rw [hcnt1]
    · rw [hcnt1]
  | execConflict i v h hv =>
    have hv0 : v = 0 := inv.readyZero i v h
    have hpos : 1 ≤ successCount s := by
      have := inv.verEq
      rw [hv0] at hv
      omega
    have hcnt : (s.workers.set i .conflicted).countP isSuccess =
        s.workers.countP isSuccess := countP_set_congr isSuccess s.workers i _ _ h rfl
    refine ⟨?_, ?_, ?_, ?_, ?_, ?_, ?_, ?_⟩
    · simpa [List.length_set] using inv.lengthEq
    · show s.ver = _
      simpa [successCount, hcnt] using inv.verEq
    · show s.status = _ ↔ _
      simpa [successCount, hcnt] using inv.statusIff
    · intro j v' hj
      rcases get?_set_cases _ i j _ _ hj with ⟨hji, hw⟩ | ⟨hji, hw⟩
      · simp at hw
      · exact inv.watchedLe j v' hw
    · intro j v' hj
      rcases get?_set_cases _ i j _ _ hj with ⟨hji, hw⟩ | ⟨hji, hw⟩
      · simp at hw
      · exact inv.readyZero j v' hw
    · intro j hj
      show 1 ≤ successCount _
      simpa [successCount, hcnt] using hpos
    · intro j hj
      show 1 ≤ successCount _
      simpa [successCount, hcnt] using hpos
    · show successCount _ ≤ 1
      simpa [successCount, hcnt] using inv.succLe

theorem raceReachable_inv {n : Nat} {s : RaceState} (h : RaceReachable n s) : RaceInv n s := by
  induction h with
  | refl => exact raceInv_init n
  | tail _ hstep ih => exact raceStep_inv ih hstep

theorem keyExists_of_scalar (s : RedisStore) (key str : String)
    (h : alookup key s.scalars = some str) : s.keyExists key = true := by
  simp [RedisStore.keyExists, h]

theorem increment_ok (s : RedisStore) (key vstr : String) (v : Int)
    (h1 : alookup key s.scalars = some vstr) (h2 : pyIntOfString vstr = some v) :
    increment_field_value true s key =
      .ok (some (v + 1), s.setScalar key (toString (v + 1))) := by
  simp [increment_field_value, field_exists, keyExists_of_scalar s key vstr h1,
    RedisStore.incr, h1, h2]

theorem hget_hsetMapping_entry (b : RedisStore) (k u ts a na : String) :
    (b.hsetMapping k
        [("URL", u), ("timestamp", ts), ("assigned_status", a),
         ("node_assignment", na)]).hget k "URL" = some u ∧
    (b.hsetMapping k
        [("URL", u), ("timestamp", ts), ("assigned_status", a),
         ("node_assignment", na)]).hget k "timestamp" = some ts ∧
    (b.hsetMapping k
        [("URL", u), ("timestamp", ts), ("assigned_status", a),
         ("node_assignment", na)]).hget k "assigned_status" = some a ∧
    (b.hsetMapping k
        [("URL", u), ("timestamp", ts), ("assigned_status", a),
         ("node_assignment", na)]).hget k "node_assignment" = some na := by
  simp [RedisStore.hsetMapping, RedisStore.hget, List.foldl, alookup_setA]

theorem claimScan_no_fetch (conflict : String → Bool) (s : RedisStore)
    (entries : List String) (r : Option String) (s' : RedisStore)
    (p : List String) (ops : List StoreOp)
    (h : claimScan conflict s entries = .ok (r, s', p, ops)) :
    ops.countP isZrangeOp = 0 := by
  induction entries generalizing r s' p ops with
  | nil =>
    simp [claimScan] at h
    rw [h.2.2.2]
    rfl
  | cons k rest ih =>
    simp only [claimScan] at h
    split at h
    · exact absurd h (by simp)
    · split at h
      · split at h
        · exact absurd h (by simp)
        · split at h
          · exact absurd h (by simp)
          · split at h
            · split at h
              · exact absurd h (by simp)
              · next r0 s0 p0 ops0 heq =>
                injection h with h
                injection h with h1 h
                injection h with h2 h
                injection h with h3 h4
                subst h4
                rw [List.countP_append, ih r0 s0 p0 ops0 heq]
                rfl
            · split at h
              · exact absurd h (by simp)
              · injection h with h
                injection h with h1 h
                injection h with h2 h
                injection h with h3 h4
                subst h4
                rfl
      · split at h
        · exact absurd h (by simp)
        · next r0 s0 p0 ops0 heq =>
          injection h with h
          injection h with h1 h
          injection h with h2 h
          injection h with h3 h4
          subst h4
          rw [List.countP_append, ih r0 s0 p0 ops0 heq]
          rfl

theorem claimScan_commit_head (s : RedisStore) (k : String) (rest : List String)
    (tstr u : String) (ts : Int)
    (hst : s.hget k "assigned_status" = some DOMAIN_ASSIGNMENT_STATUS_UNASSIGNED)
    (hts : s.hget k "timestamp" = some tstr)
    (hti : pyIntOfString tstr = some ts)
    (hurl : s.hget k "URL" = some u) :
    claimScan (fun _ => false) s (k :: rest) =
      .ok (none,
        ((s.hset k "assigned_status" DOMAIN_ASSIGNMENT_STATUS_ASSIGNED).zrem
          DOMAIN_ENTRY_BY_TIMESTAMP_SET k).zadd DOMAIN_ENTRY_ASSIGNED_TO_NODE_SET k ts,
        ["Locked and moved entry: " ++ k ++ " with URL: " ++ u ++
          ", Timestamp: " ++ toString ts],
        [StoreOp.watch k, StoreOp.hget k "assigned_status", StoreOp.hget k "timestamp",
         StoreOp.execTry k, StoreOp.hget k "URL"]) := by
  have hurl' : (((s.hset k "assigned_status" DOMAIN_ASSIGNMENT_STATUS_ASSIGNED).zrem
      DOMAIN_ENTRY_BY_TIMESTAMP_SET k).zadd
        DOMAIN_ENTRY_ASSIGNED_TO_NODE_SET k ts).hget k "URL" = some u := by
    rw [hget_zadd, hget_zrem, hget_hset_field_ne s k _ _ "URL" (by decide)]
    exact hurl
  simp [claimScan, hst, hts, hti, hurl']

/-- Claim C6, counterexample: on a connected client with an entirely empty
store (so the key is absent), `increment_field_value` does NOT create the
key at 0 and return the integer 1 — it returns `None` and leaves the store
untouched, so the claim "creates the key at 0 before incrementing and
returns an integer (so the first call returns 1)" is false on the code. -/
theorem claim6_counterexample :
    increment_field_value true emptyRedisStore "domain_entry_id" =
      .ok (none, emptyRedisStore) ∧
    increment_field_value true emptyRedisStore "domain_entry_id" ≠
      .ok (some 1, emptyRedisStore.setScalar "domain_entry_id" "1") := by
  refine ⟨rfl, ?_⟩
  intro hcontra
  rw [show increment_field_value true emptyRedisStore "domain_entry_id" =
    .ok (none, emptyRedisStore) from rfl] at hcontra
  injection hcontra with hcontra
  injection hcontra with h1 h2
  exact Option.noConfusion h1

/-- Claim C6 (amended): on a connected client, `increment_field_value`
returns `None` without creating or incrementing anything when the key is
absent; when the key holds an integer-shaped scalar `v` it increments and
returns `v + 1`; and it fails with the `OperationError` wrapper
(`RuntimeError` around the `ResponseError`) when the stored scalar is not
integer-shaped. -/
theorem claim6_amended (s : RedisStore) (key : String) :
    (s.keyExists key = false → increment_field_value true s key = .ok (none, s)) ∧
    (∀ (vstr : String) (v : Int), alookup key s.scalars = some vstr →
      pyIntOfString vstr = some v →
      increment_field_value true s key =
        .ok (some (v + 1), s.setScalar key (toString (v + 1)))) ∧
    (∀ vstr : String, alookup key s.scalars = some vstr → pyIntOfString vstr = none →
      increment_field_value true s key =
        .error (.responseError "value is not an integer or out of range")) := by
  refine ⟨?_, ?_, ?_⟩
  · intro h
    simp [increment_field_value, field_exists, h]
  · intro vstr v h1 h2
    exact increment_ok s key vstr v h1 h2
  · intro vstr h1 h2
    simp [increment_field_value, field_exists, keyExists_of_scalar s key vstr h1,
      RedisStore.incr, h1, h2]

/-- Witness for the amended claim C6 at a concrete store: with the counter
holding `"5"`, the call returns 6 and stores `"6"`. -/
theorem claim6_amended_witness :
    increment_field_value true counterFiveStore "domain_entry_id" =
      .ok (some (5 + 1), counterFiveStore.setScalar "domain_entry_id" (toString (5 + 1))) :=
  (claim6_amended counterFiveStore "domain_entry_id").2.1 "5" 5 rfl rfl

/-- Claim C7, counterexample: `get_hash_field_value` called without an
active connection does not fail with the not-connected error (it raises a
Python `AttributeError` instead, since the source has no connection check
there). -/
theorem claim7_counterexample :
    get_hash_field_value false emptyRedisStore "NODE_ENTRY:1" "URL" ≠
      .error RedisError.noConnection := by
  intro h
  rw [show get_hash_field_value false emptyRedisStore "NODE_ENTRY:1" "URL" =
    .error (.attributeError "NoneType object has no attribute hget") from rfl] at h
  injection h with h
  exact RedisError.noConfusion h

/-- Claim C7 (amended): without an active connection, the scalar get/set,
existence check, increment, and hash-field set operations all fail with the
not-connected error, but `get_hash_field_value` instead fails with an
`AttributeError` (the source accesses `self._client.hget` unguarded). -/
theorem claim7_amended (s : RedisStore) (key field value : String)
    (mapping : List (String × String)) :
    set_field_value false s key value = .error .noConnection ∧
    get_field_value false s key = .error .noConnection ∧
    field_exists false s key = .error .noConnection ∧
    increment_field_value false s key = .error .noConnection ∧
    set_hash_field_value false s key field value = .error .noConnection ∧
    set_hash_field_values false s key mapping = .error .noConnection ∧
    get_hash_field_value false s key field =
      .error (.attributeError "NoneType object has no attribute hget") :=
  ⟨rfl, rfl, rfl, rfl, rfl, rfl, rfl⟩

/-- Claim C8, counterexample: when the external health-check ping yields a
non-raising falsy answer, `connect` returns the "false" success indicator
`False` — it neither reaches the connected state (`True`) nor raises the
connection error, so the claimed two-outcome dichotomy is false on the
code (whose own docstring says "True if the connection ... is successful,
False otherwise"). -/
theorem claim8_counterexample :
    connect (.pong false) "localhost" 6379 = .ok false ∧
    connect (.pong false) "localhost" 6379 ≠ .ok true ∧
    connect (.pong false) "localhost" 6379 ≠
      .error (.connectFailed "localhost" 6379 "Connection refused") := by
  refine ⟨rfl, ?_, ?_⟩
  · intro h
    rw [show connect (.pong false) "localhost" 6379 = .ok false from rfl] at h
    injection h with h
    exact Bool.noConfusion h
  · intro h
    rw [show connect (.pong false) "localhost" 6379 = .ok false from rfl] at h
    exact Except.noConfusion h

/-- Claim C8 (amended): `connect` returns `True` when the ping answers
truthily, raises the connection error carrying host, port and underlying
cause when the connection attempt raises, and returns `False` (a
non-raising unsuccessful indicator) when the ping answers falsily. -/
theorem claim8_amended (hostname : String) (port_number : Int) (b : Bool) (msg : String) :
    connect (.pong b) hostname port_number = .ok b ∧
    connect (.connError msg) hostname port_number =
      .error (.connectFailed hostname port_number msg) :=
  ⟨rfl, rfl⟩

/-- Claim C9: on a connected client whose id counter holds an
integer-shaped value `v`, `add_domain_entry` writes the record under the
key `NODE_ENTRY:<v+1>` (fixed prefix plus the freshly allocated decimal
id) with exactly the fields `URL = url`, `timestamp = now`,
`assigned_status = "unassigned"`, `node_assignment = ""` in one bulk hash
write (the single `hsetMapping` the resulting store is obtained by), and
adds that key to the unassigned sorted set with score `now`. -/
theorem claim9_create_entry (s : RedisStore) (url : String) (now : Int)
    (vstr : String) (v : Int)
    (h1 : alookup KEY_DOMAIN_ENTRY_ID s.scalars = some vstr)
    (h2 : pyIntOfString vstr = some v) :
    add_domain_entry true s url now =
      .ok (((s.setScalar KEY_DOMAIN_ENTRY_ID (toString (v + 1))).hsetMapping
          (KEY_DOMAIN_ENTRY_PREF ++ toString (v + 1))
          [("URL", url), ("timestamp", toString now),
           ("assigned_status", DOMAIN_ASSIGNMENT_STATUS_UNASSIGNED),
           ("node_assignment", "")]).zadd DOMAIN_ENTRY_BY_TIMESTAMP_SET
            (KEY_DOMAIN_ENTRY_PREF ++ toString (v + 1)) now) ∧
    ∀ s', add_domain_entry true s url now = .ok s' →
      (s'.hget (KEY_DOMAIN_ENTRY_PREF ++ toString (v + 1)) "URL" = some url ∧
       s'.hget (KEY_DOMAIN_ENTRY_PREF ++ toString (v + 1)) "timestamp" =
         some (toString now) ∧
       s'.hget (KEY_DOMAIN_ENTRY_PREF ++ toString (v + 1)) "assigned_status" =
         some DOMAIN_ASSIGNMENT_STATUS_UNASSIGNED ∧
       s'.hget (KEY_DOMAIN_ENTRY_PREF ++ toString (v + 1)) "node_assignment" = some "" ∧
       alookup (KEY_DOMAIN_ENTRY_PREF ++ toString (v + 1))
         (s'.zsetMembers DOMAIN_ENTRY_BY_TIMESTAMP_SET) = some now) := by
  have hrun : add_domain_entry true s url now =
      .ok (((s.setScalar KEY_DOMAIN_ENTRY_ID (toString (v + 1))).hsetMapping
          (KEY_DOMAIN_ENTRY_PREF ++ toString (v + 1))
          [("URL", url), ("timestamp", toString now),
           ("assigned_status", DOMAIN_ASSIGNMENT_STATUS_UNASSIGNED),
           ("node_assignment", "")]).zadd DOMAIN_ENTRY_BY_TIMESTAMP_SET
            (KEY_DOMAIN_ENTRY_PREF ++ toString (v + 1)) now) := by
    unfold add_domain_entry
    rw [increment_ok s KEY_DOMAIN_ENTRY_ID vstr v h1 h2]
    rfl
  refine ⟨hrun, ?_⟩
  intro s' hs'
  rw [hrun] at hs'
  injection hs' with hs'
  subst hs'
  obtain ⟨hu, ht, ha, hn⟩ := hget_hsetMapping_entry
    (s.setScalar KEY_DOMAIN_ENTRY_ID (toString (v + 1)))
    (KEY_DOMAIN_ENTRY_PREF ++ toString (v + 1)) url (toString now)
    DOMAIN_ASSIGNMENT_STATUS_UNASSIGNED ""
  refine ⟨?_, ?_, ?_, ?_, ?_⟩
  · rw [hget_zadd]
    exact hu
  · rw [hget_zadd]
    exact ht
  · rw [hget_zadd]
    exact ha
  · rw [hget_zadd]
    exact hn
  · rw [zsetMembers_zadd_self, alookup_setA, if_pos rfl]

/-- Witness for claim C9 at a concrete store: counter at `"0"` allocates
id 1, writing `NODE_ENTRY:1` and publishing it with score 100. -/
theorem claim9_create_entry_witness :
    add_domain_entry true counterZeroStore "http://a.com" 100 =
      .ok (((counterZeroStore.setScalar KEY_DOMAIN_ENTRY_ID
          (toString ((0 : Int) + 1))).hsetMapping
          (KEY_DOMAIN_ENTRY_PREF ++ toString ((0 : Int) + 1))
          [("URL", "http://a.com"), ("timestamp", toString (100 : Int)),
           ("assigned_status", DOMAIN_ASSIGNMENT_STATUS_UNASSIGNED),
           ("node_assignment", "")]).zadd DOMAIN_ENTRY_BY_TIMESTAMP_SET
            (KEY_DOMAIN_ENTRY_PREF ++ toString ((0 : Int) + 1)) 100) ∧
    ((((counterZeroStore.setScalar KEY_DOMAIN_ENTRY_ID
          (toString ((0 : Int) + 1))).hsetMapping
          (KEY_DOMAIN_ENTRY_PREF ++ toString ((0 : Int) + 1))
          [("URL", "http://a.com"), ("timestamp", toString (100 : Int)),
           ("assigned_status", DOMAIN_ASSIGNMENT_STATUS_UNASSIGNED),
           ("node_assignment", "")]).zadd DOMAIN_ENTRY_BY_TIMESTAMP_SET
            (KEY_DOMAIN_ENTRY_PREF ++ toString ((0 : Int) + 1)) 100).hget
        (KEY_DOMAIN_ENTRY_PREF ++ toString ((0 : Int) + 1)) "URL" = some "http://a.com" ∧
     (((counterZeroStore.setScalar KEY_DOMAIN_ENTRY_ID
          (toString ((0 : Int) + 1))).hsetMapping
          (KEY_DOMAIN_ENTRY_PREF ++ toString ((0 : Int) + 1))
          [("URL", "http://a.com"), ("timestamp", toString (100 : Int)),
           ("assigned_status", DOMAIN_ASSIGNMENT_STATUS_UNASSIGNED),
           ("node_assignment", "")]).zadd DOMAIN_ENTRY_BY_TIMESTAMP_SET
            (KEY_DOMAIN_ENTRY_PREF ++ toString ((0 : Int) + 1)) 100).hget
        (KEY_DOMAIN_ENTRY_PREF ++ toString ((0 : Int) + 1)) "timestamp" =
          some (toString (100 : Int)) ∧
     (((counterZeroStore.setScalar KEY_DOMAIN_ENTRY_ID
          (toString ((0 : Int) + 1))).hsetMapping
          (KEY_DOMAIN_ENTRY_PREF ++ toString ((0 : Int) + 1))
          [("URL", "http://a.com"), ("timestamp", toString (100 : Int)),
           ("assigned_status", DOMAIN_ASSIGNMENT_STATUS_UNASSIGNED),
           ("node_assignment", "")]).zadd DOMAIN_ENTRY_BY_TIMESTAMP_SET
            (KEY_DOMAIN_ENTRY_PREF ++ toString ((0 : Int) + 1)) 100).hget
        (KEY_DOMAIN_ENTRY_PREF ++ toString ((0 : Int) + 1)) "assigned_status" =
          some DOMAIN_ASSIGNMENT_STATUS_UNASSIGNED ∧
     (((counterZeroStore.setScalar KEY_DOMAIN_ENTRY_ID
          (toString ((0 : Int) + 1))).hsetMapping
          (KEY_DOMAIN_ENTRY_PREF ++ toString ((0 : Int) + 1))
          [("URL", "http://a.com"), ("timestamp", toString (100 : Int)),
           ("assigned_status", DOMAIN_ASSIGNMENT_STATUS_UNASSIGNED),
           ("node_assignment", "")]).zadd DOMAIN_ENTRY_BY_TIMESTAMP_SET
            (KEY_DOMAIN_ENTRY_PREF ++ toString ((0 : Int) + 1)) 100).hget
        (KEY_DOMAIN_ENTRY_PREF ++ toString ((0 : Int) + 1)) "node_assignment" = some "" ∧
     alookup (KEY_DOMAIN_ENTRY_PREF ++ toString ((0 : Int) + 1))
       ((((counterZeroStore.setScalar KEY_DOMAIN_ENTRY_ID
          (toString ((0 : Int) + 1))).hsetMapping
          (KEY_DOMAIN_ENTRY_PREF ++ toString ((0 : Int) + 1))
          [("URL", "http://a.com"), ("timestamp", toString (100 : Int)),
           ("assigned_status", DOMAIN_ASSIGNMENT_STATUS_UNASSIGNED),
           ("node_assignment", "")]).zadd DOMAIN_ENTRY_BY_TIMESTAMP_SET
            (KEY_DOMAIN_ENTRY_PREF ++ toString ((0 : Int) + 1)) 100).zsetMembers
          DOMAIN_ENTRY_BY_TIMESTAMP_SET) = some 100) := by
  have h := claim9_create_entry counterZeroStore "http://a.com" 100 "0" 0 rfl rfl
  exact ⟨h.1, h.2 _ h.1⟩

theorem keyExists_false_parts (s : RedisStore) (k : String) (h : s.keyExists k = false) :
    alookup k s.scalars = none ∧ alookup k s.hashes = none ∧ alookup k s.zsets = none := by
  cases h1 : alookup k s.scalars <;> cases h2 : alookup k s.hashes <;>
    cases h3 : alookup k s.zsets <;> simp [RedisStore.keyExists, h1, h2, h3] at h ⊢

theorem add_domain_entry_no_counter (s : RedisStore) (url : String) (now : Int)
    (h : s.keyExists KEY_DOMAIN_ENTRY_ID = false) :
    add_domain_entry true s url now =
      .ok ((s.hsetMapping "NODE_ENTRY:None"
        [("URL", url), ("timestamp", toString now),
         ("assigned_status", DOMAIN_ASSIGNMENT_STATUS_UNASSIGNED),
         ("node_assignment", "")]).zadd DOMAIN_ENTRY_BY_TIMESTAMP_SET
           "NODE_ENTRY:None" now) ∧
    ((s.hsetMapping "NODE_ENTRY:None"
        [("URL", url), ("timestamp", toString now),
         ("assigned_status", DOMAIN_ASSIGNMENT_STATUS_UNASSIGNED),
         ("node_assignment", "")]).zadd DOMAIN_ENTRY_BY_TIMESTAMP_SET
           "NODE_ENTRY:None" now).keyExists KEY_DOMAIN_ENTRY_ID = false := by
  obtain ⟨hs1, hs2, hs3⟩ := keyExists_false_parts s KEY_DOMAIN_ENTRY_ID h
  constructor
  · unfold add_domain_entry
    rw [show increment_field_value true s KEY_DOMAIN_ENTRY_ID = .ok (none, s) by
      simp [increment_field_value, field_exists, h]]
    rfl
  · simp only [KEY_DOMAIN_ENTRY_ID] at hs1 hs2 hs3
    simp [RedisStore.keyExists, RedisStore.hsetMapping, RedisStore.zadd,
      RedisStore.zsetMembers, alookup_setA, hs1, hs2, hs3, KEY_DOMAIN_ENTRY_ID,
      DOMAIN_ENTRY_BY_TIMESTAMP_SET]

/-- Claim C10: with the id-counter key absent, `add_domain_entry` does not
fail: the id allocation yields `None`, the record is written (still
marked unassigned) under the literal key `"NODE_ENTRY:None"`, and a second
entry created in this state is written under that same single key
(overwriting the first) instead of receiving a unique, monotonically
assigned id. -/
theorem claim10_counter_absent (s : RedisStore) (url url2 : String) (now now2 : Int)
    (h : s.keyExists KEY_DOMAIN_ENTRY_ID = false) :
    add_domain_entry true s url now = .ok (addEntryNoCounterStore s url now) ∧
    (addEntryNoCounterStore s url now).hget "NODE_ENTRY:None" "URL" = some url ∧
    (addEntryNoCounterStore s url now).hget "NODE_ENTRY:None" "assigned_status" =
      some DOMAIN_ASSIGNMENT_STATUS_UNASSIGNED ∧
    add_domain_entry true (addEntryNoCounterStore s url now) url2 now2 =
      .ok (addEntryNoCounterStore (addEntryNoCounterStore s url now) url2 now2) ∧
    (addEntryNoCounterStore (addEntryNoCounterStore s url now) url2 now2).hget
      "NODE_ENTRY:None" "URL" = some url2 := by
  obtain ⟨hrun1, hkey1⟩ := add_domain_entry_no_counter s url now h
  obtain ⟨hu1, ht1, ha1, hn1⟩ := hget_hsetMapping_entry s "NODE_ENTRY:None" url
    (toString now) DOMAIN_ASSIGNMENT_STATUS_UNASSIGNED ""
  obtain ⟨hrun2, _⟩ := add_domain_entry_no_counter _ url2 now2 hkey1
  obtain ⟨hu2, ht2, ha2, hn2⟩ := hget_hsetMapping_entry
    (addEntryNoCounterStore s url now) "NODE_ENTRY:None" url2
    (toString now2) DOMAIN_ASSIGNMENT_STATUS_UNASSIGNED ""
  exact ⟨hrun1, by rw [addEntryNoCounterStore, hget_zadd]; exact hu1,
    by rw [addEntryNoCounterStore, hget_zadd]; exact ha1, hrun2,
    by rw [addEntryNoCounterStore, hget_zadd]; exact hu2⟩

/-- Witness for claim C10 at the empty store (no counter key): both
entries land on `"NODE_ENTRY:None"`, the second overwriting the first. -/
theorem claim10_counter_absent_witness :
    add_domain_entry true emptyRedisStore "http://a.com" 100 =
      .ok (addEntryNoCounterStore emptyRedisStore "http://a.com" 100) ∧
    (addEntryNoCounterStore emptyRedisStore "http://a.com" 100).hget
      "NODE_ENTRY:None" "URL" = some "http://a.com" ∧
    (addEntryNoCounterStore emptyRedisStore "http://a.com" 100).hget
      "NODE_ENTRY:None" "assigned_status" = some DOMAIN_ASSIGNMENT_STATUS_UNASSIGNED ∧
    add_domain_entry true (addEntryNoCounterStore emptyRedisStore "http://a.com" 100)
        "http://b.com" 200 =
      .ok (addEntryNoCounterStore
        (addEntryNoCounterStore emptyRedisStore "http://a.com" 100) "http://b.com" 200) ∧
    (addEntryNoCounterStore
        (addEntryNoCounterStore emptyRedisStore "http://a.com" 100) "http://b.com"
          200).hget "NODE_ENTRY:None" "URL" = some "http://b.com" :=
  claim10_counter_absent emptyRedisStore "http://a.com" "http://b.com" 100 200 rfl

/-- Claim C5, code bug: after `initialise_redis(force=True)` on a
connected client with prior content, the id counter does read 0, the
per-entry records are deleted and the unassigned sorted set is cleared,
but the assigned sorted set (`domain_entries_assigned_to_node`) is NEVER
touched by the source and keeps its members, contradicting both the claim
and the method's own docstring ("clears existing domain entries and node
assignments set"); the reset is therefore not all-or-nothing. -/
theorem claim5_code_bug :
    initialise_redis true preResetStore true =
      .ok (RedisStore.mk [("domain_entry_id", "0")] []
        [("domain_entries_assigned_to_node", [("NODE_ENTRY:0", 50)])]) ∧
    (RedisStore.mk [("domain_entry_id", "0")] []
      [("domain_entries_assigned_to_node", [("NODE_ENTRY:0", 50)])]).getScalar
        KEY_DOMAIN_ENTRY_ID = some "0" ∧
    (RedisStore.mk [("domain_entry_id", "0")] []
      [("domain_entries_assigned_to_node", [("NODE_ENTRY:0", 50)])]).zsetMembers
        DOMAIN_ENTRY_BY_TIMESTAMP_SET = [] ∧
    (RedisStore.mk [("domain_entry_id", "0")] []
      [("domain_entries_assigned_to_node", [("NODE_ENTRY:0", 50)])]).zsetMembers
        DOMAIN_ENTRY_ASSIGNED_TO_NODE_SET = [("NODE_ENTRY:0", 50)] :=
  ⟨rfl, rfl, rfl, rfl⟩

/-- Claim C4, code bug: both `return` statements of
`find_and_assign_oldest_entry` return `None` to the caller. On a store
with one claimable entry the invocation commits (the entry's status
becomes `"assigned"`) and prints the claimed entry, but the caller still
receives `None` — exactly the value returned when no candidate could be
claimed — despite the source's own comment "If transaction succeeds,
return the entry". The caller therefore cannot distinguish the two
outcomes from the result. -/
theorem claim4_code_bug :
    (find_and_assign_oldest_entry (fun _ => false) oneEntryStore).toOption.map
        (fun out => (out.ret, out.store.hget "NODE_ENTRY:1" "assigned_status",
          out.prints)) =
      some (none, some "assigned",
        ["Locked and moved entry: NODE_ENTRY:1 with URL: http://example.com, Timestamp: 100"]) ∧
    (find_and_assign_oldest_entry (fun _ => false) emptyRedisStore).toOption.map
        (fun out => (out.ret, out.prints)) =
      some (none, ["No unassigned entries found."]) :=
  ⟨rfl, rfl⟩

/-- Claim C3: every invocation of `find_and_assign_oldest_entry` that
returns does so after a single pass: the trace of store commands it issued
contains exactly one frontier fetch (`ZRANGEBYSCORE`), for any store and
any interference pattern — the `while True:` body returns on every control
path, so the snapshot is never re-fetched within the same call. -/
theorem claim3_single_pass (conflict : String → Bool) (s : RedisStore)
    (out : FindOutcome)
    (h : find_and_assign_oldest_entry conflict s = .ok out) :
    out.ops.countP isZrangeOp = 1 := by
  have h' : (match claimScan conflict s
      ((sortByScore (s.zsetMembers DOMAIN_ENTRY_BY_TIMESTAMP_SET)).map Prod.fst) with
    | Except.error e => (Except.error e : Except PyErr FindOutcome)
    | Except.ok (r, s', p, ops) =>
      Except.ok ⟨r, s', p, StoreOp.zrangebyscore DOMAIN_ENTRY_BY_TIMESTAMP_SET :: ops⟩) =
      .ok out := h
  cases hsc : claimScan conflict s
      ((sortByScore (s.zsetMembers DOMAIN_ENTRY_BY_TIMESTAMP_SET)).map Prod.fst) with
  | error e =>
    rw [hsc] at h'
    exact Except.noConfusion h'
  | ok q =>
    obtain ⟨r, s', p, ops⟩ := q
    rw [hsc] at h'
    injection h' with h'
    subst h'
    show List.countP isZrangeOp
      (StoreOp.zrangebyscore DOMAIN_ENTRY_BY_TIMESTAMP_SET :: ops) = 1
    rw [List.countP_cons, claimScan_no_fetch conflict s _ r s' p ops hsc]
    rfl

/-- Witness for claim C3 at the empty store: the returning invocation's
trace holds exactly one `ZRANGEBYSCORE`. -/
theorem claim3_single_pass_witness :
    (FindOutcome.mk none emptyRedisStore ["No unassigned entries found."]
      [StoreOp.zrangebyscore "domain_entries_by_timestamp"]).ops.countP isZrangeOp = 1 :=
  claim3_single_pass (fun _ => false) emptyRedisStore
    (FindOutcome.mk none emptyRedisStore ["No unassigned entries found."]
      [StoreOp.zrangebyscore "domain_entries_by_timestamp"]) rfl

/-- Claim C2: on a store whose unassigned frontier holds entries with
pairwise distinct timestamps, all with status `"unassigned"` and
well-formed records, a single uncontended invocation (no watched key is
ever modified by another client) claims the entry with the smallest
timestamp: candidates are scanned in ascending score order and the first
still-unassigned one is taken, so exactly that minimal entry's status
becomes `"assigned"`, it leaves the unassigned set and enters the
assigned set with its timestamp as score, and every other entry stays
unassigned. -/
theorem claim2_oldest_first (s : RedisStore) (members : List (String × Int))
    (hm : s.zsetMembers DOMAIN_ENTRY_BY_TIMESTAMP_SET = members)
    (hne : members ≠ [])
    (hdis : (members.map Prod.snd).Nodup)
    (hstat : ∀ q ∈ members,
      s.hget q.1 "assigned_status" = some DOMAIN_ASSIGNMENT_STATUS_UNASSIGNED)
    (htime : ∀ q ∈ members, (s.hget q.1 "timestamp").bind pyIntOfString = some q.2)
    (hurl : ∀ q ∈ members, (s.hget q.1 "URL").isSome = true) :
    ∃ out kmin tsmin, find_and_assign_oldest_entry (fun _ => false) s = .ok out ∧
      (kmin, tsmin) ∈ members ∧
      (∀ q ∈ members, tsmin ≤ q.2) ∧
      (∀ q ∈ members, q.2 = tsmin → q.1 = kmin) ∧
      out.store.hget kmin "assigned_status" = some DOMAIN_ASSIGNMENT_STATUS_ASSIGNED ∧
      (∀ q ∈ members, q.1 ≠ kmin →
        out.store.hget q.1 "assigned_status" = some DOMAIN_ASSIGNMENT_STATUS_UNASSIGNED) ∧
      alookup kmin (out.store.zsetMembers DOMAIN_ENTRY_BY_TIMESTAMP_SET) = none ∧
      alookup kmin (out.store.zsetMembers DOMAIN_ENTRY_ASSIGNED_TO_NODE_SET) = some tsmin := by
  cases hsort : sortByScore members with
  | nil => exact absurd (sortByScore_eq_nil members hsort) hne
  | cons hd tl =>
    obtain ⟨k0, t0⟩ := hd
    have hmem0 : (k0, t0) ∈ members := by
      refine (mem_sortByScore _ members).mp ?_
      rw [hsort]
      exact List.mem_cons_self _ _
    have hminall : ∀ q ∈ members, t0 ≤ q.2 := by
      intro q hq
      have hq' : q ∈ sortByScore members := (mem_sortByScore q members).mpr hq
      rw [hsort] at hq'
      rcases List.mem_cons.mp hq' with h1 | h1
      · rw [h1]
      · have hpw := pairwise_sortByScore members
        rw [hsort] at hpw
        rcases hpw with _ | ⟨hhd, _⟩
        exact hhd q h1
    have hst0 := hstat _ hmem0
    have hts0 := htime _ hmem0
    have hurl0 := hurl _ hmem0
    obtain ⟨tstr, hts1, hti⟩ :
        ∃ tstr, s.hget k0 "timestamp" = some tstr ∧ pyIntOfString tstr = some t0 := by
      cases hx : s.hget k0 "timestamp" with
      | none =>
        rw [hx] at hts0
        exact Option.noConfusion hts0
      | some tstr =>
        rw [hx] at hts0
        exact ⟨tstr, rfl, hts0⟩
    obtain ⟨u, hu⟩ : ∃ u, s.hget k0 "URL" = some u := by
      cases hx : s.hget k0 "URL" with
      | none =>
        rw [hx] at hurl0
        exact Bool.noConfusion hurl0
      | some u => exact ⟨u, rfl⟩
    have hscan := claimScan_commit_head s k0 (tl.map Prod.fst) tstr u t0 hst0 hts1 hti hu
    have hfind : find_and_assign_oldest_entry (fun _ => false) s =
        .ok ⟨none,
          ((s.hset k0 "assigned_status" DOMAIN_ASSIGNMENT_STATUS_ASSIGNED).zrem
            DOMAIN_ENTRY_BY_TIMESTAMP_SET k0).zadd DOMAIN_ENTRY_ASSIGNED_TO_NODE_SET k0 t0,
          ["Locked and moved entry: " ++ k0 ++ " with URL: " ++ u ++
            ", Timestamp: " ++ toString t0],
          [StoreOp.zrangebyscore DOMAIN_ENTRY_BY_TIMESTAMP_SET, StoreOp.watch k0,
           StoreOp.hget k0 "assigned_status", StoreOp.hget k0 "timestamp",
           StoreOp.execTry k0, StoreOp.hget k0 "URL"]⟩ := by
      show (match claimScan (fun _ => false) s
          ((sortByScore (s.zsetMembers DOMAIN_ENTRY_BY_TIMESTAMP_SET)).map Prod.fst) with
        | Except.error e => (Except.error e : Except PyErr FindOutcome)
        | Except.ok (r, s', p, ops) =>
          Except.ok ⟨r, s', p, StoreOp.zrangebyscore DOMAIN_ENTRY_BY_TIMESTAMP_SET :: ops⟩) = _
      rw [hm, hsort]
      show (match claimScan (fun _ => false) s (k0 :: tl.map Prod.fst) with
        | Except.error e => (Except.error e : Except PyErr FindOutcome)
        | Except.ok (r, s', p, ops) =>
          Except.ok ⟨r, s', p, StoreOp.zrangebyscore DOMAIN_ENTRY_BY_TIMESTAMP_SET :: ops⟩) = _
      rw [hscan]
    have huniq : ∀ q ∈ members, q.2 = t0 → q.1 = k0 := by
      intro q hq hq2
      have : q = (k0, t0) := List.inj_on_of_nodup_map hdis hq hmem0 hq2
      rw [this]
    refine ⟨_, k0, t0, hfind, hmem0, hminall, huniq, ?_, ?_, ?_, ?_⟩
    · show (((s.hset k0 "assigned_status" DOMAIN_ASSIGNMENT_STATUS_ASSIGNED).zrem
        DOMAIN_ENTRY_BY_TIMESTAMP_SET k0).zadd
          DOMAIN_ENTRY_ASSIGNED_TO_NODE_SET k0 t0).hget k0 "assigned_status" = _
      rw [hget_zadd, hget_zrem, hget_hset_self]
    · intro q hq hqne
      show (((s.hset k0 "assigned_status" DOMAIN_ASSIGNMENT_STATUS_ASSIGNED).zrem
        DOMAIN_ENTRY_BY_TIMESTAMP_SET k0).zadd
          DOMAIN_ENTRY_ASSIGNED_TO_NODE_SET k0 t0).hget q.1 "assigned_status" = _
      rw [hget_zadd, hget_zrem, hget_hset_key_ne s k0 _ _ q.1 _ hqne]
      exact hstat q hq
    · show alookup k0 ((((s.hset k0 "assigned_status"
        DOMAIN_ASSIGNMENT_STATUS_ASSIGNED).zrem DOMAIN_ENTRY_BY_TIMESTAMP_SET k0).zadd
          DOMAIN_ENTRY_ASSIGNED_TO_NODE_SET k0 t0).zsetMembers
            DOMAIN_ENTRY_BY_TIMESTAMP_SET) = none
      rw [zsetMembers_zadd_ne _ _ _ _ _ (by decide), zsetMembers_zrem_self,
        zsetMembers_hset, hm, alookup_removeA_self]
    · show alookup k0 ((((s.hset k0 "assigned_status"
        DOMAIN_ASSIGNMENT_STATUS_ASSIGNED).zrem DOMAIN_ENTRY_BY_TIMESTAMP_SET k0).zadd
          DOMAIN_ENTRY_ASSIGNED_TO_NODE_SET k0 t0).zsetMembers
            DOMAIN_ENTRY_ASSIGNED_TO_NODE_SET) = some t0
      rw [zsetMembers_zadd_self, alookup_setA, if_pos rfl]

/-- Witness for claim C2 at a concrete store whose frontier lists two
unassigned entries out of timestamp order: the entry with timestamp 100
(`NODE_ENTRY:1`) is the one claimed. -/
theorem claim2_oldest_first_witness :
    ∃ out kmin tsmin,
      find_and_assign_oldest_entry (fun _ => false) twoEntryStore = .ok out ∧
      (kmin, tsmin) ∈ [("NODE_ENTRY:2", (300 : Int)), ("NODE_ENTRY:1", 100)] ∧
      (∀ q ∈ [("NODE_ENTRY:2", (300 : Int)), ("NODE_ENTRY:1", 100)], tsmin ≤ q.2) ∧
      (∀ q ∈ [("NODE_ENTRY:2", (300 : Int)), ("NODE_ENTRY:1", 100)],
        q.2 = tsmin → q.1 = kmin) ∧
      out.store.hget kmin "assigned_status" = some DOMAIN_ASSIGNMENT_STATUS_ASSIGNED ∧
      (∀ q ∈ [("NODE_ENTRY:2", (300 : Int)), ("NODE_ENTRY:1", 100)], q.1 ≠ kmin →
        out.store.hget q.1 "assigned_status" = some DOMAIN_ASSIGNMENT_STATUS_UNASSIGNED) ∧
      alookup kmin (out.store.zsetMembers DOMAIN_ENTRY_BY_TIMESTAMP_SET) = none ∧
      alookup kmin (out.store.zsetMembers DOMAIN_ENTRY_ASSIGNED_TO_NODE_SET) = some tsmin :=
  claim2_oldest_first twoEntryStore [("NODE_ENTRY:2", 300), ("NODE_ENTRY:1", 100)]
    rfl (by decide) (by decide) (by decide) (by decide) (by decide)

/-- Claim C1: under any interleaving of `n` workers racing the
candidate-loop body on one entry, at most one worker's conditional
transaction ever commits, and once every worker has finished (each having
either committed, skipped after observing the entry as already assigned,
or abandoned it on a `WatchError` conflict — both of the latter skip the
entry), exactly one worker has succeeded and the other `n - 1` workers
skipped the entry without claiming it: no two workers ever both claim the
same entry. -/
theorem claim1_at_most_one_claim (n : Nat) (s : RaceState) (h : RaceReachable n s) :
    successCount s ≤ 1 ∧
    (allDone s = true → 1 ≤ n →
      successCount s = 1 ∧ s.workers.countP isLoser = n - 1) := by
  have inv := raceReachable_inv h
  refine ⟨inv.succLe, ?_⟩
  intro hdone hn
  have hlen : s.workers.length = n := inv.lengthEq
  obtain ⟨w0, hw0⟩ : ∃ w, s.workers.get? 0 = some w := by
    cases hws : s.workers with
    | nil =>
      rw [hws] at hlen
      simp at hlen
      omega
    | cons a l => exact ⟨a, rfl⟩
  have hall := List.all_eq_true.mp hdone
  have hw0mem : w0 ∈ s.workers := by
    have := List.get?_eq_some.mp hw0
    obtain ⟨hlt, hget⟩ := this
    rw [← hget]
    exact List.get_mem s.workers 0 hlt
  have hterm : isDonePhase w0 = true := hall w0 hw0mem
  have hpos : 1 ≤ successCount s := by
    cases w0 with
    | success => exact get?_countP_pos isSuccess s.workers 0 _ hw0 rfl
    | skipped => exact inv.skippedSucc 0 hw0
    | conflicted => exact inv.conflictedSucc 0 hw0
    | scanning => exact absurd hterm (by simp [isDonePhase, isSuccess, isLoser])
    | watched v => exact absurd hterm (by simp [isDonePhase, isSuccess, isLoser])
    | ready v => exact absurd hterm (by simp [isDonePhase, isSuccess, isLoser])
  have hone : successCount s = 1 := le_antisymm inv.succLe hpos
  refine ⟨hone, ?_⟩
  have hsplit := countP_split_done s.workers hall
  have hone' : s.workers.countP isSuccess = 1 := hone
  omega

/-- Witness for claim C1 with two racing workers: in the interleaving
where worker 0 watches, reads unassigned, and commits, after which worker
1 watches and reads the now-assigned status, the terminal state has
exactly one success and one skipping loser. -/
theorem claim1_at_most_one_claim_witness :
    successCount ⟨.assigned, 1, [.success, .skipped]⟩ = 1 ∧
    (RaceState.mk .assigned 1 [.success, .skipped]).workers.countP isLoser = 2 - 1 := by
  have t1 : RaceStep (initRace 2) ⟨.unassigned, 0, [.watched 0, .scanning]⟩ :=
    RaceStep.watchKey (initRace 2) 0 rfl
  have t2 : RaceStep ⟨.unassigned, 0, [.watched 0, .scanning]⟩
      ⟨.unassigned, 0, [.ready 0, .scanning]⟩ :=
    RaceStep.readUnassigned ⟨.unassigned, 0, [.watched 0, .scanning]⟩ 0 0 rfl rfl
  have t3 : RaceStep ⟨.unassigned, 0, [.ready 0, .scanning]⟩
      ⟨.assigned, 1, [.success, .scanning]⟩ :=
    RaceStep.execCommit ⟨.unassigned, 0, [.ready 0, .scanning]⟩ 0 0 rfl rfl
  have t4 : RaceStep ⟨.assigned, 1, [.success, .scanning]⟩
      ⟨.assigned, 1, [.success, .watched 1]⟩ :=
    RaceStep.watchKey ⟨.assigned, 1, [.success, .scanning]⟩ 1 rfl
  have t5 : RaceStep ⟨.assigned, 1, [.success, .watched 1]⟩
      ⟨.assigned, 1, [.success, .skipped]⟩ :=
    RaceStep.readAssigned ⟨.assigned, 1, [.success, .watched 1]⟩ 1 1 rfl rfl
  have hreach : RaceReachable 2 ⟨.assigned, 1, [.success, .skipped]⟩ :=
    Relation.ReflTransGen.tail (Relation.ReflTransGen.tail (Relation.ReflTransGen.tail
      (Relation.ReflTransGen.tail (Relation.ReflTransGen.tail
        Relation.ReflTransGen.refl t1) t2) t3) t4) t5
  exact (claim1_at_most_one_claim 2 ⟨.assigned, 1, [.success, .skipped]⟩ hreach).2
    rfl (by omega)
